import Mathlib

/-!
Shallow embedding of `src/app.py` (accent-analyzer pipeline).

The program glues four external collaborators together:
  * yt-dlp (Media Fetcher)          — modelled by a `FetchOutcome` oracle value,
  * pydub  (Audio Normalizer)       — modelled by a `MediaEnv` of decode/encode functions,
  * speech_recognition (Transcription) — modelled by a `RecogOutcome` oracle value,
  * Mistral chat API (Accent Analyzer) — modelled by a `ChatOutcome` oracle value.

Python exceptions are modelled as values of `PyError` carrying `str(e)`; each
stage returns an `Except PyError _` together with a trace of the observable
side effects the claims talk about (temp-dir allocation, network attempts,
cleanup).  The definitions follow the control flow of `app.py` line by line.
-/

namespace AccentAnalyzer

/-- The characters Python's `str.strip()` removes by default (ASCII range). -/
def isPyWhitespace (c : Char) : Bool :=
  c = ' ' || c = '\t' || c = '\n' || c = '\r' || c = '\x0b' || c = '\x0c'

/-- Python `s.strip()`: drop leading and trailing whitespace. -/
def pyStrip (s : String) : String :=
  String.mk (((s.data.dropWhile isPyWhitespace).reverse.dropWhile isPyWhitespace).reverse)

/-- Python `s.lower()`: lowercase every character. -/
def pyLower (s : String) : String :=
  String.mk (s.data.map Char.toLower)

/-- Python `s.split('.')` on the character list: split at every dot. -/
def splitOnDot : List Char → List (List Char)
  | [] => [[]]
  | c :: rest =>
      let r := splitOnDot rest
      if c = '.' then [] :: r
      else
        match r with
        | s :: ss => (c :: s) :: ss
        | [] => [[c]]

/-- Python `fname.split('.')[-1].lower()` — the lowercased last dot-segment,
used at line 89 of `app.py` to read the extension of the downloaded file. -/
def pyLastExt (fname : String) : String :=
  pyLower (String.mk ((splitOnDot fname.data).getLastD []))

/-- A Python exception as observed by callers: its class and `str(e)`. -/
inductive PyError where
  | valueError (msg : String)
  | runtimeError (msg : String)
  | osError (msg : String)
  deriving DecidableEq, Repr

/-- Python `str(e)` of a caught exception. -/
def PyError.msg : PyError → String
  | .valueError m => m
  | .runtimeError m => m
  | .osError m => m

/-- The spec's error taxonomy (§7). -/
inductive Taxonomy where
  | invalidInput
  | notConfigured
  | fetchError
  | conversionError
  | unintelligibleAudio
  | serviceUnavailable
  | invalidResponse
  | unexpectedError
  deriving DecidableEq, Repr

/-- Refinement map from the concrete exceptions `app.py` raises to the spec's
taxonomy kinds: each constructor corresponds to one raise site of the code. -/
inductive HasKind : PyError → Taxonomy → Prop where
  | emptyUrl :
      HasKind (.valueError "Video URL cannot be empty") .invalidInput
  | emptyTranscript :
      HasKind (.valueError "Transcription must be a non-empty string") .invalidInput
  | clientMissing :
      HasKind (.valueError "MistralAI client is not configured") .notConfigured
  | downloadFailed (m : String) :
      HasKind (.runtimeError ("Failed to extract audio: " ++ m)) .fetchError
  | conversionFailed (m : String) :
      HasKind (.runtimeError ("Audio conversion failed: " ++ m)) .conversionError
  | notUnderstood :
      HasKind (.runtimeError "Speech recognition could not understand audio") .unintelligibleAudio
  | recogRequestFailed (m : String) :
      HasKind (.runtimeError ("Could not request results from speech recognition service; " ++ m))
        .serviceUnavailable
  | llmFailed (m : String) :
      HasKind (.runtimeError ("Error generating analysis: " ++ m)) .serviceUnavailable
  | unexpectedFetch (m : String) :
      HasKind (.runtimeError ("An unexpected error occurred: " ++ m)) .unexpectedError
  | unexpectedTranscribe (m : String) :
      HasKind (.runtimeError ("Error during transcription: " ++ m)) .unexpectedError

/-- An `io.BytesIO` buffer: its contents and the current stream position. -/
structure BytesIO where
  data : List Nat
  pos : Nat
  deriving DecidableEq, Repr

/-- A decoded pydub `AudioSegment`: frame rate, channel count, raw samples. -/
structure Audio where
  frameRate : Nat
  channels : Nat
  pcm : List Nat
  deriving DecidableEq, Repr

/-- The external media machinery (pydub/ffmpeg) as abstract total functions:
`decode` is `AudioSegment.from_file` (errors carry the exception message),
`setFrameRate`/`setChannels` are `set_frame_rate`/`set_channels`, and
`encode` is `export`. -/
structure MediaEnv where
  decode : String → List Nat → Except String Audio
  setFrameRate : Nat → Audio → Audio
  setChannels : Nat → Audio → Audio
  encode : Audio → String → List Nat

/-- `convert_audio_format` (app.py lines 107–118): decode with the input
format tag, set frame rate to `SAMPLE_RATE = 16000`, set channels to
`CHANNELS = 1`, export to the output format, rewind the buffer.  A decoder
exception is wrapped as `RuntimeError("Audio conversion failed: ...")`. -/
def convert_audio_format (env : MediaEnv) (audio_data : List Nat)
    (input_format : String) (output_format : String) : Except PyError BytesIO :=
  match env.decode input_format audio_data with
  | .error e => .error (.runtimeError ("Audio conversion failed: " ++ e))
  | .ok audio =>
      let audio := env.setChannels 1 (env.setFrameRate 16000 audio)
      .ok { data := env.encode audio output_format, pos := 0 }

/-- What the yt-dlp downloader does inside the `try` block of
`stream_audio_to_memory`: raise a `DownloadError`, return falsy info,
leave no `audio.*` file, raise some other exception, or deliver a file
`audio.<ext>` whose contents are `bytes`. -/
inductive FetchOutcome where
  | downloadError (msg : String)
  | noInfo
  | noAudioFile
  | otherExc (msg : String)
  | ok (ext : String) (bytes : List Nat)
  deriving DecidableEq, Repr

/-- `shutil.rmtree(temp_dir, ignore_errors=...)`: returns the exception it
would propagate, if any.  With `ignore_errors=True` a removal failure is
swallowed. -/
def shutil_rmtree (ignore_errors : Bool) (removalFails : Bool) : Option PyError :=
  if removalFails && !ignore_errors then some (.osError "rmtree failed") else none

/-- Trace of one call to `stream_audio_to_memory`. -/
structure FetchTrace where
  tempDirCreated : Bool
  networkAttempted : Bool
  cleanupRan : Bool
  cleanupRaised : Bool
  result : Except PyError BytesIO
  deriving Repr

/-- `stream_audio_to_memory` (app.py lines 46–103).  The URL guard runs
before `tempfile.mkdtemp()`; the downloader runs inside `try`;
`yt_dlp.utils.DownloadError` is wrapped as `"Failed to extract audio: ..."`,
any other exception as `"An unexpected error occurred: ..."`; the `finally`
clause removes the temp directory with `ignore_errors=True`.  A conversion
failure (a `RuntimeError` raised inside the `try` body) is caught by the
generic `except Exception` clause and re-wrapped. -/
def stream_audio_to_memory (env : MediaEnv) (downloader : FetchOutcome)
    (rmtreeFails : Bool) (video_url : String) : FetchTrace :=
  if (video_url == "") || (pyStrip video_url == "") then
    { tempDirCreated := false, networkAttempted := false, cleanupRan := false,
      cleanupRaised := false,
      result := .error (.valueError "Video URL cannot be empty") }
  else
    let tryResult : Except PyError BytesIO :=
      match downloader with
      | .downloadError m =>
          .error (.runtimeError ("Failed to extract audio: " ++ m))
      | .noInfo =>
          .error (.runtimeError ("An unexpected error occurred: " ++
            "Could not extract video information"))
      | .noAudioFile =>
          .error (.runtimeError ("An unexpected error occurred: " ++
            "Could not find downloaded audio file"))
      | .otherExc m =>
          .error (.runtimeError ("An unexpected error occurred: " ++ m))
      | .ok ext bytes =>
          let e := pyLastExt ("audio." ++ ext)
          if e != "wav" then
            match convert_audio_format env bytes e "wav" with
            | .error err =>
                .error (.runtimeError ("An unexpected error occurred: " ++ err.msg))
            | .ok buf => .ok { buf with pos := 0 }
          else
            .ok { data := bytes, pos := 0 }
    let cleanupErr := shutil_rmtree true rmtreeFails
    { tempDirCreated := true, networkAttempted := true, cleanupRan := true,
      cleanupRaised := cleanupErr.isSome,
      result := match cleanupErr with
        | some e => .error e
        | none => tryResult }

/-- What the speech-recognition service does for one invocation:
return text, raise `sr.UnknownValueError`, raise `sr.RequestError`, or
raise some other exception. -/
inductive RecogOutcome where
  | ok (text : String)
  | unknownValue
  | requestError (msg : String)
  | otherExc (msg : String)
  deriving DecidableEq, Repr

/-- `transcribe_audio` (app.py lines 122–139): the three except clauses wrap
each recognizer failure into a `RuntimeError` with a fixed distinct prefix. -/
def transcribe_audio (recognizer : RecogOutcome) : Except PyError String :=
  match recognizer with
  | .ok t => .ok t
  | .unknownValue =>
      .error (.runtimeError "Speech recognition could not understand audio")
  | .requestError m =>
      .error (.runtimeError ("Could not request results from speech recognition service; " ++ m))
  | .otherExc m =>
      .error (.runtimeError ("Error during transcription: " ++ m))

/-- What the Mistral chat call does: return a response whose choices each
carry an optional `message.content`, return a falsy response, or raise a
transport/service exception. -/
inductive ChatOutcome where
  | response (choices : List (Option String))
  | noneResponse
  | serviceExc (msg : String)
  deriving DecidableEq, Repr

/-- Trace of one call to `analyze_accent`. -/
structure AnalyzeTrace where
  networkAttempted : Bool
  result : Except PyError (Option String)
  deriving Repr

/-- `analyze_accent` (app.py lines 141–175): the client guard runs first,
then the transcription guard, both before the network call; inside the
`try`, a falsy or choice-less response raises
`ValueError("Invalid or empty response from MistralAI API")`, which — like
every other exception raised there — is caught by `except Exception` and
re-wrapped as `RuntimeError("Error generating analysis: ...")`.  Otherwise
the first choice's `message.content` is returned as-is (it may be absent). -/
def analyze_accent (clientConfigured : Bool) (chat : ChatOutcome)
    (transcription : String) : AnalyzeTrace :=
  if !clientConfigured then
    { networkAttempted := false,
      result := .error (.valueError "MistralAI client is not configured") }
  else if transcription == "" then
    { networkAttempted := false,
      result := .error (.valueError "Transcription must be a non-empty string") }
  else
    match chat with
    | .serviceExc m =>
        { networkAttempted := true,
          result := .error (.runtimeError ("Error generating analysis: " ++ m)) }
    | .noneResponse =>
        { networkAttempted := true,
          result := .error (.runtimeError ("Error generating analysis: " ++
            "Invalid or empty response from MistralAI API")) }
    | .response [] =>
        { networkAttempted := true,
          result := .error (.runtimeError ("Error generating analysis: " ++
            "Invalid or empty response from MistralAI API")) }
    | .response (c :: _) =>
        { networkAttempted := true, result := .ok c }

/-- Terminal state of one submitted run of `main`. -/
inductive RunState where
  | idle
  | done
  | failed (msg : String)
  deriving DecidableEq, Repr

/-- Trace of one pass through the submission branch of `main`. -/
structure RunTrace where
  fetchInvoked : Bool
  transcribeInvoked : Bool
  analyzeInvoked : Bool
  cleanupRan : Bool
  transcriptShown : Option String
  configErrorBanner : Bool
  analysisShown : Option (Option String)
  finalState : RunState
  deriving Repr

/-- The orchestration in `main` (app.py lines 198–227): on submit with a
truthy URL, run fetch; fail the run if the buffer is empty; transcribe and
show the transcript; then either show the configuration-error banner (when
no client is configured) or run the analyzer; any exception escaping a step
is caught at line 225 and surfaced as `"An error occurred: ..."`. -/
def main_run (env : MediaEnv) (clientConfigured : Bool)
    (downloader : FetchOutcome) (rmtreeFails : Bool)
    (recognizer : RecogOutcome) (chat : ChatOutcome)
    (submitted : Bool) (video_url : String) : RunTrace :=
  if !(submitted && (video_url != "")) then
    { fetchInvoked := false, transcribeInvoked := false, analyzeInvoked := false,
      cleanupRan := false, transcriptShown := none, configErrorBanner := false,
      analysisShown := none, finalState := .idle }
  else
    let ft := stream_audio_to_memory env downloader rmtreeFails video_url
    match ft.result with
    | .error e =>
        { fetchInvoked := true, transcribeInvoked := false, analyzeInvoked := false,
          cleanupRan := ft.cleanupRan, transcriptShown := none,
          configErrorBanner := false, analysisShown := none,
          finalState := .failed ("An error occurred: " ++ e.msg) }
    | .ok buf =>
        if buf.data.length == 0 then
          { fetchInvoked := true, transcribeInvoked := false, analyzeInvoked := false,
            cleanupRan := ft.cleanupRan, transcriptShown := none,
            configErrorBanner := false, analysisShown := none,
            finalState := .failed ("An error occurred: " ++ "No audio data was extracted") }
        else
          match transcribe_audio recognizer with
          | .error e =>
              { fetchInvoked := true, transcribeInvoked := true, analyzeInvoked := false,
                cleanupRan := ft.cleanupRan, transcriptShown := none,
                configErrorBanner := false, analysisShown := none,
                finalState := .failed ("An error occurred: " ++ e.msg) }
          | .ok t =>
              if !clientConfigured then
                { fetchInvoked := true, transcribeInvoked := true, analyzeInvoked := false,
                  cleanupRan := ft.cleanupRan, transcriptShown := some t,
                  configErrorBanner := true, analysisShown := none,
                  finalState := .done }
              else
                let ar := analyze_accent clientConfigured chat t
                match ar.result with
                | .error e =>
                    { fetchInvoked := true, transcribeInvoked := true,
                      analyzeInvoked := true, cleanupRan := ft.cleanupRan,
                      transcriptShown := some t, configErrorBanner := false,
                      analysisShown := none,
                      finalState := .failed ("An error occurred: " ++ e.msg) }
                | .ok content =>
                    { fetchInvoked := true, transcribeInvoked := true,
                      analyzeInvoked := true, cleanupRan := ft.cleanupRan,
                      transcriptShown := some t, configErrorBanner := false,
                      analysisShown := some content, finalState := .done }

/-- A concrete, coherent media environment used to instantiate theorems:
bytes encode an `Audio` as frame rate, then channel count, then samples, so
`decode` inverts `encode`. -/
def codecEnv : MediaEnv where
  decode := fun _ l =>
    match l with
    | r :: c :: p => .ok { frameRate := r, channels := c, pcm := p }
    | _ => .error "cannot decode"
  setFrameRate := fun r a => { a with frameRate := r }
  setChannels := fun c a => { a with channels := c }
  encode := fun a _ => a.frameRate :: a.channels :: a.pcm

section StringLemmas

theorem data_append_eq (a b : String) : (a ++ b).data = a.data ++ b.data := rfl

theorem ne_append_of_head_ne (a b m : String)
    (h : a.data.head? ≠ b.data.head?) (hb : b.data ≠ []) : a ≠ b ++ m := by
  intro he
  apply h
  have hd : a.data = b.data ++ m.data := by rw [he, data_append_eq]
  rw [hd]
  cases hb2 : b.data with
  | nil => exact absurd hb2 hb
  | cons c cs => simp

theorem append_ne_append_of_ne (p a b : String) (h : a ≠ b) : p ++ a ≠ p ++ b := by
  intro he
  apply h
  have hd : p.data ++ a.data = p.data ++ b.data := by
    rw [← data_append_eq, ← data_append_eq, he]
  have h2 : a.data = b.data := List.append_cancel_left hd
  cases a
  cases b
  exact congrArg String.mk h2

end StringLemmas

/-- C1: the mkdtemp directory allocated by `stream_audio_to_memory` is
released exactly when it was allocated, on every exit path (success,
downloader failure, any other exception); the `ignore_errors=True` removal
never raises, and the returned result is the same whether or not the
removal fails, so a deletion failure never masks the original error. -/
theorem fetch_cleanup_total (env : MediaEnv) (downloader : FetchOutcome)
    (rmtreeFails : Bool) (url : String) :
    (stream_audio_to_memory env downloader rmtreeFails url).cleanupRan =
      (stream_audio_to_memory env downloader rmtreeFails url).tempDirCreated ∧
    (stream_audio_to_memory env downloader rmtreeFails url).cleanupRaised = false ∧
    (stream_audio_to_memory env downloader rmtreeFails url).result =
      (stream_audio_to_memory env downloader false url).result := by
  unfold stream_audio_to_memory
  split
  · exact ⟨rfl, rfl, rfl⟩
  · simp [shutil_rmtree]

/-- C2: on a recognizer "could not understand" outcome `transcribe_audio`
fails with the `UnintelligibleAudio` kind, on a transport/quota outcome it
fails with the `ServiceUnavailable` kind, and the two failures and success
are three pairwise distinct outcomes. -/
theorem transcribe_three_outcomes (m t : String) :
    transcribe_audio .unknownValue =
      .error (.runtimeError "Speech recognition could not understand audio") ∧
    HasKind (.runtimeError "Speech recognition could not understand audio")
      .unintelligibleAudio ∧
    transcribe_audio (.requestError m) =
      .error (.runtimeError
        ("Could not request results from speech recognition service; " ++ m)) ∧
    HasKind (.runtimeError
        ("Could not request results from speech recognition service; " ++ m))
      .serviceUnavailable ∧
    Taxonomy.unintelligibleAudio ≠ Taxonomy.serviceUnavailable ∧
    transcribe_audio .unknownValue ≠ transcribe_audio (.requestError m) ∧
    transcribe_audio (.ok t) ≠ transcribe_audio .unknownValue ∧
    transcribe_audio (.ok t) ≠ transcribe_audio (.requestError m) := by
  refine ⟨rfl, .notUnderstood, rfl, .recogRequestFailed m, by decide, ?_, ?_, ?_⟩
  · intro h
    simp only [transcribe_audio, Except.error.injEq, PyError.runtimeError.injEq] at h
    exact ne_append_of_head_ne
      "Speech recognition could not understand audio"
      "Could not request results from speech recognition service; " m
      (by decide) (by decide) h
  · intro h
    simp [transcribe_audio] at h
  · intro h
    simp [transcribe_audio] at h

/-- C3: for every URL that is empty or whitespace-only, fetch fails with the
`InvalidInput` kind, and neither the temporary directory allocation nor the
network access happens before that failure. -/
theorem fetch_rejects_blank_url (env : MediaEnv) (downloader : FetchOutcome)
    (rmtreeFails : Bool) (url : String) (h : pyStrip url = "") :
    (stream_audio_to_memory env downloader rmtreeFails url).result =
      .error (.valueError "Video URL cannot be empty") ∧
    HasKind (.valueError "Video URL cannot be empty") .invalidInput ∧
    (stream_audio_to_memory env downloader rmtreeFails url).tempDirCreated = false ∧
    (stream_audio_to_memory env downloader rmtreeFails url).networkAttempted = false := by
  have hc : ((url == "") || (pyStrip url == "")) = true := by simp [h]
  refine ⟨?_, .emptyUrl, ?_, ?_⟩ <;> simp [stream_audio_to_memory, hc]

/-- C3 witness at the whitespace-only URL `"  \t "`. -/
theorem fetch_rejects_blank_url_witness :
    pyStrip "  \t " = "" ∧
    (stream_audio_to_memory codecEnv (.ok "wav" [1]) false "  \t ").result =
      .error (.valueError "Video URL cannot be empty") :=
  ⟨by decide, (fetch_rejects_blank_url codecEnv (.ok "wav" [1]) false "  \t " (by decide)).1⟩

/-- C4: `analyze_accent` without a configured client fails with the
`NotConfigured` kind before any network call and regardless of the
transcript (so the credential check precedes the transcript check); with a
client but an empty transcript it fails with the distinct `InvalidInput`
kind, again before any network call. -/
theorem analyze_precondition_order (chat : ChatOutcome) (t : String) :
    (analyze_accent false chat t).result =
      .error (.valueError "MistralAI client is not configured") ∧
    (analyze_accent false chat t).networkAttempted = false ∧
    HasKind (.valueError "MistralAI client is not configured") .notConfigured ∧
    (analyze_accent true chat "").result =
      .error (.valueError "Transcription must be a non-empty string") ∧
    (analyze_accent true chat "").networkAttempted = false ∧
    HasKind (.valueError "Transcription must be a non-empty string") .invalidInput ∧
    PyError.valueError "MistralAI client is not configured" ≠
      .valueError "Transcription must be a non-empty string" ∧
    Taxonomy.notConfigured ≠ Taxonomy.invalidInput :=
  ⟨rfl, rfl, .clientMissing, rfl, rfl, .emptyTranscript, by decide, by decide⟩

/-- C5 counterexample: a completion response whose only choice carries no
message content is passed through as a success (content `none`) — the code
only validates that `response.choices` is non-empty, so `analyze_accent`
does not fail with `InvalidResponse` on a content-less choice. -/
theorem analyze_no_content_succeeds :
    (analyze_accent true (.response [none]) "hello").result = .ok none := rfl

/-- C5 amended: a falsy response or an empty choices list makes
`analyze_accent` fail with `RuntimeError("Error generating analysis:
Invalid or empty response from MistralAI API")`; a transport/service
exception is wrapped with the same prefix, so the two failures are
distinguishable only when the transport message differs from the
invalid-response message; a response with at least one choice is returned
as that choice's content even when the content is absent. -/
theorem analyze_invalid_response_amended (t m : String) (ht : t ≠ "")
    (hm : m ≠ "Invalid or empty response from MistralAI API") :
    (analyze_accent true .noneResponse t).result =
      .error (.runtimeError ("Error generating analysis: " ++
        "Invalid or empty response from MistralAI API")) ∧
    (analyze_accent true (.response []) t).result =
      .error (.runtimeError ("Error generating analysis: " ++
        "Invalid or empty response from MistralAI API")) ∧
    (analyze_accent true (.serviceExc m) t).result =
      .error (.runtimeError ("Error generating analysis: " ++ m)) ∧
    (analyze_accent true .noneResponse t).result ≠
      (analyze_accent true (.serviceExc m) t).result := by
  have ht2 : (t == "") = false := by simp [ht]
  have hne : ("Error generating analysis: Invalid or empty response from MistralAI API" : String) ≠
      "Error generating analysis: " ++ m := by
    have h0 : ("Error generating analysis: Invalid or empty response from MistralAI API" : String) =
        "Error generating analysis: " ++ "Invalid or empty response from MistralAI API" := by decide
    rw [h0]
    exact append_ne_append_of_ne _ _ _ (Ne.symm hm)
  refine ⟨?_, ?_, ?_, ?_⟩ <;> simp [analyze_accent, ht2, hne]

/-- C5 witness at transcript `"hello"` and transport message `"boom"`. -/
theorem analyze_invalid_response_amended_witness :
    ("hello" : String) ≠ "" ∧
    (analyze_accent true .noneResponse "hello").result ≠
      (analyze_accent true (.serviceExc "boom") "hello").result :=
  ⟨by decide,
    (analyze_invalid_response_amended "hello" "boom" (by decide) (by decide)).2.2.2⟩

/-- C6: when the downloader raises a download error, the run terminates in
the failed state carrying the `FetchError`-kind message, transcription and
analysis are never invoked, and the temp-dir cleanup still runs. -/
theorem download_error_aborts_run (env : MediaEnv) (clientConfigured : Bool)
    (rmtreeFails : Bool) (recognizer : RecogOutcome) (chat : ChatOutcome)
    (m url : String) (h : pyStrip url ≠ "") :
    (main_run env clientConfigured (.downloadError m) rmtreeFails recognizer chat
        true url).finalState =
      .failed ("An error occurred: " ++ ("Failed to extract audio: " ++ m)) ∧
    HasKind (.runtimeError ("Failed to extract audio: " ++ m)) .fetchError ∧
    (main_run env clientConfigured (.downloadError m) rmtreeFails recognizer chat
        true url).transcribeInvoked = false ∧
    (main_run env clientConfigured (.downloadError m) rmtreeFails recognizer chat
        true url).analyzeInvoked = false ∧
    (main_run env clientConfigured (.downloadError m) rmtreeFails recognizer chat
        true url).cleanupRan = true := by
  have hu : url ≠ "" := fun e => h (by rw [e]; rfl)
  refine ⟨?_, .downloadFailed m, ?_, ?_, ?_⟩ <;>
    simp [main_run, stream_audio_to_memory, shutil_rmtree, hu, h, PyError.msg]

/-- C6 witness at URL `"http://x"` and downloader message `"no audio track"`. -/
theorem download_error_aborts_run_witness :
    pyStrip "http://x" ≠ "" ∧
    (main_run codecEnv true (.downloadError "no audio track") false (.ok "hi")
        .noneResponse true "http://x").finalState =
      .failed ("An error occurred: " ++ ("Failed to extract audio: " ++ "no audio track")) :=
  ⟨by decide,
    (download_error_aborts_run codecEnv true false (.ok "hi") .noneResponse
      "no audio track" "http://x" (by decide)).1⟩

/-- C7: when the downloaded file's extension already denotes the canonical
container (`wav`), normalization is a passthrough — the returned buffer
holds exactly the fetched bytes and is positioned at its start. -/
theorem wav_passthrough (env : MediaEnv) (rmtreeFails : Bool)
    (bytes : List Nat) (ext url : String)
    (hurl : pyStrip url ≠ "") (hext : pyLastExt ("audio." ++ ext) = "wav") :
    (stream_audio_to_memory env (.ok ext bytes) rmtreeFails url).result =
      .ok { data := bytes, pos := 0 } := by
  have hu : url ≠ "" := fun e => hurl (by rw [e]; rfl)
  simp [stream_audio_to_memory, shutil_rmtree, hu, hurl, hext]

/-- C7 witness at extension `"wav"` and bytes `[1, 2]`. -/
theorem wav_passthrough_witness :
    pyStrip "http://x" ≠ "" ∧ pyLastExt ("audio." ++ "wav") = "wav" ∧
    (stream_audio_to_memory codecEnv (.ok "wav" [1, 2]) false "http://x").result =
      .ok { data := [1, 2], pos := 0 } :=
  ⟨by decide, by decide,
    wav_passthrough codecEnv false [1, 2] "wav" "http://x" (by decide) (by decide)⟩

/-- C8 counterexample: a successful fetch of a `wav` file whose content is a
44.1 kHz stereo waveform passes through unchanged, so the buffer handed to
transcription decodes to a waveform that is neither 16 kHz nor mono — the
passthrough branch checks only the container extension, never the sample
rate or channel count. -/
theorem canonical_waveform_counterexample :
    (stream_audio_to_memory codecEnv (.ok "wav" [44100, 2, 7]) false "http://x").result =
      .ok { data := [44100, 2, 7], pos := 0 } ∧
    codecEnv.decode "wav" [44100, 2, 7] =
      .ok { frameRate := 44100, channels := 2, pcm := [7] } ∧
    (44100 : Nat) ≠ 16000 ∧ (2 : Nat) ≠ 1 :=
  ⟨rfl, rfl, by decide, by decide⟩

/-- C8 amended: only when the downloaded extension is not `wav` does the
pipeline decode with the codec tag, set the frame rate to 16 kHz, downmix
to one channel and re-encode, handing transcription a buffer positioned at
its start that decodes to the canonical mono 16 kHz waveform; a `wav` file
passes through unchanged, so its buffer is canonical only if the fetched
wav already was. -/
theorem normalize_noncanonical_amended (env : MediaEnv) (rmtreeFails : Bool)
    (bytes : List Nat) (ext url : String) (a : Audio)
    (hurl : pyStrip url ≠ "")
    (hext : pyLastExt ("audio." ++ ext) ≠ "wav")
    (hdec : env.decode (pyLastExt ("audio." ++ ext)) bytes = .ok a)
    (hfr : ∀ r x, env.setFrameRate r x = { x with frameRate := r })
    (hch : ∀ c x, env.setChannels c x = { x with channels := c })
    (hrt : ∀ x, env.decode "wav" (env.encode x "wav") = .ok x) :
    (stream_audio_to_memory env (.ok ext bytes) rmtreeFails url).result =
      .ok { data := env.encode { a with frameRate := 16000, channels := 1 } "wav",
            pos := 0 } ∧
    env.decode "wav" (env.encode { a with frameRate := 16000, channels := 1 } "wav") =
      .ok { a with frameRate := 16000, channels := 1 } := by
  have hu : url ≠ "" := fun e => hurl (by rw [e]; rfl)
  refine ⟨?_, hrt _⟩
  simp [stream_audio_to_memory, convert_audio_format, shutil_rmtree,
    hu, hurl, hext, hdec, hfr, hch]

/-- C8 amended witness at extension `"mp3"` and a 44.1 kHz stereo input. -/
theorem normalize_noncanonical_amended_witness :
    pyStrip "http://x" ≠ "" ∧ pyLastExt ("audio." ++ "mp3") ≠ "wav" ∧
    (stream_audio_to_memory codecEnv (.ok "mp3" [44100, 2, 7]) false "http://x").result =
      .ok { data := codecEnv.encode { frameRate := 16000, channels := 1, pcm := [7] } "wav",
            pos := 0 } :=
  ⟨by decide, by decide,
    (normalize_noncanonical_amended codecEnv false [44100, 2, 7] "mp3" "http://x"
      { frameRate := 44100, channels := 2, pcm := [7] }
      (by decide) (by decide) rfl (fun _ _ => rfl) (fun _ _ => rfl) (fun _ => rfl)).1⟩

/-- C9: a run started without a configured credential still executes fetch
and transcription, shows the transcript, replaces the analysis step by a
configuration-error banner without invoking the analyzer, and ends in the
done state rather than a failed one. -/
theorem missing_credential_degrades (env : MediaEnv) (downloader : FetchOutcome)
    (rmtreeFails : Bool) (chat : ChatOutcome) (url t : String) (buf : BytesIO)
    (hurl : url ≠ "")
    (hfetch : (stream_audio_to_memory env downloader rmtreeFails url).result = .ok buf)
    (hbuf : buf.data ≠ []) :
    (main_run env false downloader rmtreeFails (.ok t) chat true url).fetchInvoked = true ∧
    (main_run env false downloader rmtreeFails (.ok t) chat true url).transcribeInvoked = true ∧
    (main_run env false downloader rmtreeFails (.ok t) chat true url).transcriptShown = some t ∧
    (main_run env false downloader rmtreeFails (.ok t) chat true url).configErrorBanner = true ∧
    (main_run env false downloader rmtreeFails (.ok t) chat true url).analyzeInvoked = false ∧
    (main_run env false downloader rmtreeFails (.ok t) chat true url).finalState = .done := by
  have hlen : (buf.data.length == 0) = false := by
    simp [List.length_eq_zero, hbuf]
  refine ⟨?_, ?_, ?_, ?_, ?_, ?_⟩ <;>
    simp [main_run, hurl, hfetch, hlen, transcribe_audio]

/-- C9 witness: fetch delivers one byte, recognition returns `"hi"`. -/
theorem missing_credential_degrades_witness :
    ("http://x" : String) ≠ "" ∧
    (main_run codecEnv false (.ok "wav" [5]) false (.ok "hi") .noneResponse
        true "http://x").configErrorBanner = true ∧
    (main_run codecEnv false (.ok "wav" [5]) false (.ok "hi") .noneResponse
        true "http://x").finalState = .done :=
  ⟨by decide,
    (missing_credential_degrades codecEnv (.ok "wav" [5]) false .noneResponse
      "http://x" "hi" { data := [5], pos := 0 } (by decide) rfl (by decide)).2.2.2.1,
    (missing_credential_degrades codecEnv (.ok "wav" [5]) false .noneResponse
      "http://x" "hi" { data := [5], pos := 0 } (by decide) rfl (by decide)).2.2.2.2.2⟩

/-- C10: a successful fetch whose buffer holds zero bytes fails the run with
the message `"No audio data was extracted"` before transcription is ever
invoked. -/
theorem empty_audio_fails_before_transcribe (env : MediaEnv)
    (clientConfigured : Bool) (downloader : FetchOutcome) (rmtreeFails : Bool)
    (recognizer : RecogOutcome) (chat : ChatOutcome) (url : String) (buf : BytesIO)
    (hurl : url ≠ "")
    (hfetch : (stream_audio_to_memory env downloader rmtreeFails url).result = .ok buf)
    (hbuf : buf.data = []) :
    (main_run env clientConfigured downloader rmtreeFails recognizer chat
        true url).finalState =
      .failed ("An error occurred: " ++ "No audio data was extracted") ∧
    (main_run env clientConfigured downloader rmtreeFails recognizer chat
        true url).transcribeInvoked = false ∧
    (main_run env clientConfigured downloader rmtreeFails recognizer chat
        true url).analyzeInvoked = false := by
  refine ⟨?_, ?_, ?_⟩ <;> simp [main_run, hurl, hfetch, hbuf]

/-- C10 witness: the downloader delivers an empty `wav` file. -/
theorem empty_audio_fails_before_transcribe_witness :
    ("http://x" : String) ≠ "" ∧
    (main_run codecEnv true (.ok "wav" []) false (.ok "hi") .noneResponse
        true "http://x").finalState =
      .failed ("An error occurred: " ++ "No audio data was extracted") ∧
    (main_run codecEnv true (.ok "wav" []) false (.ok "hi") .noneResponse
        true "http://x").transcribeInvoked = false :=
  ⟨by decide,
    (empty_audio_fails_before_transcribe codecEnv true (.ok "wav" []) false
      (.ok "hi") .noneResponse "http://x" { data := [], pos := 0 }
      (by decide) rfl rfl).1,
    (empty_audio_fails_before_transcribe codecEnv true (.ok "wav" []) false
      (.ok "hi") .noneResponse "http://x" { data := [], pos := 0 }
      (by decide) rfl rfl).2.1⟩

end AccentAnalyzer
